import Mathlib

/-!
# Shallow embedding of the vidmod node-graph runtime

This file embeds, in Lean, the data model and operations of the vidmod
repository that the verified claims are about:

* `LimVecDeque` — the capacity-limited FIFO of
  `vidmod-node/src/limvecdeque.rs` (a thin wrapper over `VecDeque`).
* `Frame`, `FrameSingle`, `FrameKind` and their operations — from
  `vidmod-node/src/frame.rs` (the module imported by `vidmod-core` as
  `vidmod_node::frame::Frame`).
* `Node2`, `PullPort`, `PushPort` — the per-node port/buffer substrate of
  `vidmod-node/src/lib.rs`.
* `NodeGraph` with `add_link`, `tick_nodes`, `tick_links`, `tick` and the
  prune step of `run()` — from `vidmod-core/src/spec/mod.rs`.

Modelling conventions:

* Machine integers (`u8`, `u16`, `usize`) are `Nat`; none of the verified
  claims involves wrap-around arithmetic.
* `f32` payloads are carried but never computed with, so they are embedded
  as their raw bit patterns (`F32Bits`).
* `ndarray` arrays are carried but never indexed by the embedded code, so
  `ArcArray1`/`ArcArray2` are element lists / lists of rows.
* A Rust panic (a failed `assert!`, an `unwrap()` of `None`, an out-of-range
  index, an `unwrap_<kind>` on the wrong variant) is `Except.error` with the
  panic message; ordinary fallible results keep their `Option` shape inside
  the `Except`.
* Rust methods that take `&mut self` become functions returning the new
  value of `self` alongside the Rust return value.
-/

set_option maxHeartbeats 1000000

namespace Vidmod

/-- Raw bit pattern of an `f32` payload.  The embedded operations only move
`f32` values between queues and never do float arithmetic on them. -/
structure F32Bits where
  bits : Nat
deriving DecidableEq

/-- 4-byte packed pixel (`RGBA8` in `frame.rs`). -/
structure RGBA8 where
  r : Nat
  g : Nat
  b : Nat
  a : Nat
deriving DecidableEq

/-- 1-D dense array payload (`ndarray::ArcArray1`), carried opaquely. -/
abbrev ArcArray1 (α : Type) := List α

/-- 2-D dense array payload (`ndarray::ArcArray2`), carried opaquely as a
list of rows. -/
abbrev ArcArray2 (α : Type) := List (List α)

/-- `LimVecDeque<T>` (`limvecdeque.rs`): a `VecDeque` wrapper that enforces
a limited capacity.  `queue` is the front-to-back element sequence. -/
structure LimVecDeque (α : Type) where
  queue    : List α
  capacity : Nat
deriving DecidableEq

namespace LimVecDeque

/-- `LimVecDeque::with_capacity` — empty queue with the given capacity. -/
def withCapacity (capacity : Nat) : LimVecDeque α :=
  ⟨[], capacity⟩

/-- `LimVecDeque::len`. -/
def len (q : LimVecDeque α) : Nat := q.queue.length

/-- `LimVecDeque::is_empty`. -/
def isEmpty (q : LimVecDeque α) : Bool := q.queue.isEmpty

/-- `LimVecDeque::pop_front` — removes and returns the first element. -/
def popFront (q : LimVecDeque α) : Option (α × LimVecDeque α) :=
  match q.queue with
  | [] => none
  | v :: rest => some (v, ⟨rest, q.capacity⟩)

/-- `LimVecDeque::push_back` — guarded by
`assert_le!(self.queue.len() + 1, self.capacity)`; the failed assertion is a
panic. -/
def pushBack (q : LimVecDeque α) (v : α) : Except String (LimVecDeque α) :=
  if q.queue.length + 1 ≤ q.capacity then
    .ok ⟨q.queue ++ [v], q.capacity⟩
  else
    .error "assertion failed: self.queue.len() + 1 <= self.capacity"

/-- `LimVecDeque::append` — guarded by
`assert_le!(self.queue.len() + other.len(), self.capacity)`; on success the
elements of `other` move to the back of `self` and `other` is left empty. -/
def append (q other : LimVecDeque α) :
    Except String (LimVecDeque α × LimVecDeque α) :=
  if q.queue.length + other.len ≤ q.capacity then
    .ok (⟨q.queue ++ other.queue, q.capacity⟩, ⟨[], other.capacity⟩)
  else
    .error "assertion failed: self.queue.len() + other.len() <= self.capacity"

/-- `LimVecDeque::drain(..count)` — removes the first `count` elements and
returns them in order.  `VecDeque::drain` panics when `count > len`; every
call site in `frame.rs` guards `size() >= count` first, so the total
function below is only ever applied under that guard. -/
def drain (q : LimVecDeque α) (count : Nat) : List α × LimVecDeque α :=
  (q.queue.take count, ⟨q.queue.drop count, q.capacity⟩)

/-- `LimVecDeque::make_contiguous` — the contents as one contiguous slice;
the logical sequence is unchanged. -/
def makeContiguous (q : LimVecDeque α) : List α := q.queue

/-- `impl From<Vec<T>> for LimVecDeque<T>` — capacity is set to the length
of the vector. -/
def fromVec (v : List α) : LimVecDeque α :=
  ⟨v, v.length⟩

/-- `impl FromIterator<T> for LimVecDeque<T>` — capacity is set to the
number of collected elements. -/
def fromIter (l : List α) : LimVecDeque α :=
  ⟨l, l.length⟩

end LimVecDeque

/-- `FrameKind` (`frame.rs`): the datatype tag of a frame. -/
inductive FrameKind where
  | U8
  | U8x1
  | U8x2
  | U16
  | U16x1
  | U16x2
  | F32
  | F32x1
  | F32x2
  | RGBA8x2
deriving DecidableEq

/-- `Frame` (`frame.rs`): a tagged bounded queue of elements of one kind. -/
inductive Frame where
  | U8 (v : LimVecDeque Nat)
  | U8x1 (v : LimVecDeque (ArcArray1 Nat))
  | U8x2 (v : LimVecDeque (ArcArray2 Nat))
  | U16 (v : LimVecDeque Nat)
  | U16x1 (v : LimVecDeque (ArcArray1 Nat))
  | U16x2 (v : LimVecDeque (ArcArray2 Nat))
  | F32 (v : LimVecDeque F32Bits)
  | F32x1 (v : LimVecDeque (ArcArray1 F32Bits))
  | F32x2 (v : LimVecDeque (ArcArray2 F32Bits))
  | RGBA8x2 (v : LimVecDeque (ArcArray2 RGBA8))
deriving DecidableEq

/-- `FrameSingle` (`frame.rs`): one element of a kind. -/
inductive FrameSingle where
  | U8 (v : Nat)
  | U8x1 (v : ArcArray1 Nat)
  | U8x2 (v : ArcArray2 Nat)
  | U16 (v : Nat)
  | U16x1 (v : ArcArray1 Nat)
  | U16x2 (v : ArcArray2 Nat)
  | F32 (v : F32Bits)
  | F32x1 (v : ArcArray1 F32Bits)
  | F32x2 (v : ArcArray2 F32Bits)
  | RGBA8x2 (v : ArcArray2 RGBA8)
deriving DecidableEq

namespace Frame

/-- `Frame::size` — length of the wrapped queue. -/
def size : Frame → Nat
  | .U8 v => v.len
  | .U8x1 v => v.len
  | .U8x2 v => v.len
  | .U16 v => v.len
  | .U16x1 v => v.len
  | .U16x2 v => v.len
  | .F32 v => v.len
  | .F32x1 v => v.len
  | .F32x2 v => v.len
  | .RGBA8x2 v => v.len

/-- `Frame::capacity` — capacity of the wrapped queue. -/
def capacity : Frame → Nat
  | .U8 v => v.capacity
  | .U8x1 v => v.capacity
  | .U8x2 v => v.capacity
  | .U16 v => v.capacity
  | .U16x1 v => v.capacity
  | .U16x2 v => v.capacity
  | .F32 v => v.capacity
  | .F32x1 v => v.capacity
  | .F32x2 v => v.capacity
  | .RGBA8x2 v => v.capacity

/-- `impl From<&Frame> for FrameKind` — the tag of a frame. -/
def kind : Frame → FrameKind
  | .U8 _ => .U8
  | .U8x1 _ => .U8x1
  | .U8x2 _ => .U8x2
  | .U16 _ => .U16
  | .U16x1 _ => .U16x1
  | .U16x2 _ => .U16x2
  | .F32 _ => .F32
  | .F32x1 _ => .F32x1
  | .F32x2 _ => .F32x2
  | .RGBA8x2 _ => .RGBA8x2

/-- `Frame::unwrap_u8` (macro-generated): the inner queue, or a panic on a
mismatched variant. -/
def unwrap_u8 : Frame → Except String (LimVecDeque Nat)
  | .U8 v => .ok v
  | _ => .error "Tried to unwrap as U8"

/-- `Frame::unwrap_u8x1` (macro-generated). -/
def unwrap_u8x1 : Frame → Except String (LimVecDeque (ArcArray1 Nat))
  | .U8x1 v => .ok v
  | _ => .error "Tried to unwrap as U8x1"

/-- `Frame::unwrap_u8x2` (macro-generated). -/
def unwrap_u8x2 : Frame → Except String (LimVecDeque (ArcArray2 Nat))
  | .U8x2 v => .ok v
  | _ => .error "Tried to unwrap as U8x2"

/-- `Frame::unwrap_u16` (macro-generated). -/
def unwrap_u16 : Frame → Except String (LimVecDeque Nat)
  | .U16 v => .ok v
  | _ => .error "Tried to unwrap as U16"

/-- `Frame::unwrap_u16x1` (macro-generated). -/
def unwrap_u16x1 : Frame → Except String (LimVecDeque (ArcArray1 Nat))
  | .U16x1 v => .ok v
  | _ => .error "Tried to unwrap as U16x1"

/-- `Frame::unwrap_u16x2` (macro-generated). -/
def unwrap_u16x2 : Frame → Except String (LimVecDeque (ArcArray2 Nat))
  | .U16x2 v => .ok v
  | _ => .error "Tried to unwrap as U16x2"

/-- `Frame::unwrap_f32` (macro-generated). -/
def unwrap_f32 : Frame → Except String (LimVecDeque F32Bits)
  | .F32 v => .ok v
  | _ => .error "Tried to unwrap as F32"

/-- `Frame::unwrap_f32x1` (macro-generated). -/
def unwrap_f32x1 : Frame → Except String (LimVecDeque (ArcArray1 F32Bits))
  | .F32x1 v => .ok v
  | _ => .error "Tried to unwrap as F32x1"

/-- `Frame::unwrap_f32x2` (macro-generated). -/
def unwrap_f32x2 : Frame → Except String (LimVecDeque (ArcArray2 F32Bits))
  | .F32x2 v => .ok v
  | _ => .error "Tried to unwrap as F32x2"

/-- `Frame::unwrap_rgba8x2` (macro-generated). -/
def unwrap_rgba8x2 : Frame → Except String (LimVecDeque (ArcArray2 RGBA8))
  | .RGBA8x2 v => .ok v
  | _ => .error "Tried to unwrap as RGBA8x2"

/-- `Frame::with_capacity` (`frame.rs` lines 254-267) — note the source
arm `FrameKind::U8x1 => Self::U8x2(...)`: the `U8x1` kind is constructed as
the `U8x2` variant.  The embedding reproduces that arm as written. -/
def with_capacity (kind : FrameKind) (capacity : Nat) : Frame :=
  match kind with
  | .U8 => .U8 (LimVecDeque.withCapacity capacity)
  | .U8x1 => .U8x2 (LimVecDeque.withCapacity capacity)
  | .U8x2 => .U8x2 (LimVecDeque.withCapacity capacity)
  | .U16 => .U16 (LimVecDeque.withCapacity capacity)
  | .U16x1 => .U16x1 (LimVecDeque.withCapacity capacity)
  | .U16x2 => .U16x2 (LimVecDeque.withCapacity capacity)
  | .F32 => .F32 (LimVecDeque.withCapacity capacity)
  | .F32x1 => .F32x1 (LimVecDeque.withCapacity capacity)
  | .F32x2 => .F32x2 (LimVecDeque.withCapacity capacity)
  | .RGBA8x2 => .RGBA8x2 (LimVecDeque.withCapacity capacity)

/-- The tag-dispatch block inside `Frame::add`: unwrap `data` as the
variant of `self` (a panic on kind mismatch) and append.  The capacity test
wrapping this block lives in `Frame.add` below. -/
def addDispatch (self data : Frame) : Except String Frame :=
  match self with
  | .U8 v =>
    match data.unwrap_u8 with
    | .ok u =>
      match v.append u with
      | .ok (v2, _) => .ok (.U8 v2)
      | .error e => .error e
    | .error e => .error e
  | .U8x1 v =>
    match data.unwrap_u8x1 with
    | .ok u =>
      match v.append u with
      | .ok (v2, _) => .ok (.U8x1 v2)
      | .error e => .error e
    | .error e => .error e
  | .U8x2 v =>
    match data.unwrap_u8x2 with
    | .ok u =>
      match v.append u with
      | .ok (v2, _) => .ok (.U8x2 v2)
      | .error e => .error e
    | .error e => .error e
  | .U16 v =>
    match data.unwrap_u16 with
    | .ok u =>
      match v.append u with
      | .ok (v2, _) => .ok (.U16 v2)
      | .error e => .error e
    | .error e => .error e
  | .U16x1 v =>
    match data.unwrap_u16x1 with
    | .ok u =>
      match v.append u with
      | .ok (v2, _) => .ok (.U16x1 v2)
      | .error e => .error e
    | .error e => .error e
  | .U16x2 v =>
    match data.unwrap_u16x2 with
    | .ok u =>
      match v.append u with
      | .ok (v2, _) => .ok (.U16x2 v2)
      | .error e => .error e
    | .error e => .error e
  | .F32 v =>
    match data.unwrap_f32 with
    | .ok u =>
      match v.append u with
      | .ok (v2, _) => .ok (.F32 v2)
      | .error e => .error e
    | .error e => .error e
  | .F32x1 v =>
    match data.unwrap_f32x1 with
    | .ok u =>
      match v.append u with
      | .ok (v2, _) => .ok (.F32x1 v2)
      | .error e => .error e
    | .error e => .error e
  | .F32x2 v =>
    match data.unwrap_f32x2 with
    | .ok u =>
      match v.append u with
      | .ok (v2, _) => .ok (.F32x2 v2)
      | .error e => .error e
    | .error e => .error e
  | .RGBA8x2 v =>
    match data.unwrap_rgba8x2 with
    | .ok u =>
      match v.append u with
      | .ok (v2, _) => .ok (.RGBA8x2 v2)
      | .error e => .error e
    | .error e => .error e

/-- `Frame::add` — the capacity test comes first; only when
`capacity() >= size() + data.size()` does the tag dispatch (and hence the
possible kind-mismatch panic) run.  The Rust return value `Option<()>` is
the second component; the first is the new value of `self`. -/
def add (self data : Frame) : Except String (Frame × Option Unit) :=
  if self.capacity ≥ self.size + data.size then
    match addDispatch self data with
    | .ok f2 => .ok (f2, some ())
    | .error e => .error e
  else
    .ok (self, none)

/-- The tag-dispatch block inside `Frame::add_single`. -/
def addSingleDispatch (self : Frame) (data : FrameSingle) :
    Except String Frame :=
  match self, data with
  | .U8 v, .U8 x =>
    match v.pushBack x with
    | .ok v2 => .ok (.U8 v2)
    | .error e => .error e
  | .U8x1 v, .U8x1 x =>
    match v.pushBack x with
    | .ok v2 => .ok (.U8x1 v2)
    | .error e => .error e
  | .U8x2 v, .U8x2 x =>
    match v.pushBack x with
    | .ok v2 => .ok (.U8x2 v2)
    | .error e => .error e
  | .U16 v, .U16 x =>
    match v.pushBack x with
    | .ok v2 => .ok (.U16 v2)
    | .error e => .error e
  | .U16x1 v, .U16x1 x =>
    match v.pushBack x with
    | .ok v2 => .ok (.U16x1 v2)
    | .error e => .error e
  | .U16x2 v, .U16x2 x =>
    match v.pushBack x with
    | .ok v2 => .ok (.U16x2 v2)
    | .error e => .error e
  | .F32 v, .F32 x =>
    match v.pushBack x with
    | .ok v2 => .ok (.F32 v2)
    | .error e => .error e
  | .F32x1 v, .F32x1 x =>
    match v.pushBack x with
    | .ok v2 => .ok (.F32x1 v2)
    | .error e => .error e
  | .F32x2 v, .F32x2 x =>
    match v.pushBack x with
    | .ok v2 => .ok (.F32x2 v2)
    | .error e => .error e
  | .RGBA8x2 v, .RGBA8x2 x =>
    match v.pushBack x with
    | .ok v2 => .ok (.RGBA8x2 v2)
    | .error e => .error e
  | _, _ => .error "Tried to unwrap FrameSingle as the wrong kind"

/-- `Frame::add_single` — appends one element when `capacity() > size()`;
the `FrameSingle` unwrap panics on kind mismatch. -/
def add_single (self : Frame) (data : FrameSingle) :
    Except String (Frame × Option Unit) :=
  if self.capacity > self.size then
    match addSingleDispatch self data with
    | .ok f2 => .ok (f2, some ())
    | .error e => .error e
  else
    .ok (self, none)

/-- `Frame::peek` — a non-consuming copy of the first `count` elements,
each arm building `LimVecDeque::from(make_contiguous()[..count].to_vec())`;
`self` is logically unchanged. -/
def peek (self : Frame) (count : Nat) : Option Frame :=
  if self.size ≥ count then
    some (match self with
      | .U8 v => .U8 (LimVecDeque.fromVec (v.makeContiguous.take count))
      | .U8x1 v => .U8x1 (LimVecDeque.fromVec (v.makeContiguous.take count))
      | .U8x2 v => .U8x2 (LimVecDeque.fromVec (v.makeContiguous.take count))
      | .U16 v => .U16 (LimVecDeque.fromVec (v.makeContiguous.take count))
      | .U16x1 v => .U16x1 (LimVecDeque.fromVec (v.makeContiguous.take count))
      | .U16x2 v => .U16x2 (LimVecDeque.fromVec (v.makeContiguous.take count))
      | .F32 v => .F32 (LimVecDeque.fromVec (v.makeContiguous.take count))
      | .F32x1 v => .F32x1 (LimVecDeque.fromVec (v.makeContiguous.take count))
      | .F32x2 v => .F32x2 (LimVecDeque.fromVec (v.makeContiguous.take count))
      | .RGBA8x2 v =>
        .RGBA8x2 (LimVecDeque.fromVec (v.makeContiguous.take count)))
  else
    none

/-- `Frame::remove` — drain the first `count` elements into a new frame
built with `LimVecDeque::from_iter`.  The pair is (new value of `self`,
the removed frame). -/
def remove (self : Frame) (count : Nat) : Option (Frame × Frame) :=
  if self.size ≥ count then
    some (match self with
      | .U8 v =>
        let d := v.drain count
        (.U8 d.2, .U8 (LimVecDeque.fromIter d.1))
      | .U8x1 v =>
        let d := v.drain count
        (.U8x1 d.2, .U8x1 (LimVecDeque.fromIter d.1))
      | .U8x2 v =>
        let d := v.drain count
        (.U8x2 d.2, .U8x2 (LimVecDeque.fromIter d.1))
      | .U16 v =>
        let d := v.drain count
        (.U16 d.2, .U16 (LimVecDeque.fromIter d.1))
      | .U16x1 v =>
        let d := v.drain count
        (.U16x1 d.2, .U16x1 (LimVecDeque.fromIter d.1))
      | .U16x2 v =>
        let d := v.drain count
        (.U16x2 d.2, .U16x2 (LimVecDeque.fromIter d.1))
      | .F32 v =>
        let d := v.drain count
        (.F32 d.2, .F32 (LimVecDeque.fromIter d.1))
      | .F32x1 v =>
        let d := v.drain count
        (.F32x1 d.2, .F32x1 (LimVecDeque.fromIter d.1))
      | .F32x2 v =>
        let d := v.drain count
        (.F32x2 d.2, .F32x2 (LimVecDeque.fromIter d.1))
      | .RGBA8x2 v =>
        let d := v.drain count
        (.RGBA8x2 d.2, .RGBA8x2 (LimVecDeque.fromIter d.1)))
  else
    none

/-- `Frame::remove_all` — builds
`Frame::with_capacity(FrameKind::from(self), self.capacity())` and swaps it
with `self`.  The pair is (new value of `self`, the returned old
contents). -/
def remove_all (self : Frame) : Frame × Frame :=
  (with_capacity self.kind self.capacity, self)

/-- `Frame::remove_single` — pop one element as a `FrameSingle`.  The pair
is (new value of `self`, popped element). -/
def remove_single (self : Frame) : Option (Frame × FrameSingle) :=
  match self with
  | .U8 v => (v.popFront).map (fun p => (.U8 p.2, .U8 p.1))
  | .U8x1 v => (v.popFront).map (fun p => (.U8x1 p.2, .U8x1 p.1))
  | .U8x2 v => (v.popFront).map (fun p => (.U8x2 p.2, .U8x2 p.1))
  | .U16 v => (v.popFront).map (fun p => (.U16 p.2, .U16 p.1))
  | .U16x1 v => (v.popFront).map (fun p => (.U16x1 p.2, .U16x1 p.1))
  | .U16x2 v => (v.popFront).map (fun p => (.U16x2 p.2, .U16x2 p.1))
  | .F32 v => (v.popFront).map (fun p => (.F32 p.2, .F32 p.1))
  | .F32x1 v => (v.popFront).map (fun p => (.F32x1 p.2, .F32x1 p.1))
  | .F32x2 v => (v.popFront).map (fun p => (.F32x2 p.2, .F32x2 p.1))
  | .RGBA8x2 v => (v.popFront).map (fun p => (.RGBA8x2 p.2, .RGBA8x2 p.1))

end Frame

/-- `PullPort` (`lib.rs`): a value handle `(node id, port name, kind)` for a
node's output side. -/
structure PullPort where
  id : Nat
  name : String
  kind : FrameKind
deriving DecidableEq

/-- `PushPort` (`lib.rs`): a value handle for a node's input side. -/
structure PushPort where
  id : Nat
  name : String
  kind : FrameKind
deriving DecidableEq

/-- `BTreeMap<String, Frame>` lookup. -/
def btreeGet (m : List (String × Frame)) (k : String) : Option Frame :=
  match m with
  | [] => none
  | (k0, v0) :: rest => if k0 = k then some v0 else btreeGet rest k

/-- `BTreeMap<String, Frame>::insert` — replaces the value when the key is
already present (the old value is dropped), otherwise adds the entry. -/
def btreeInsert (m : List (String × Frame)) (k : String) (v : Frame) :
    List (String × Frame) :=
  match m with
  | [] => [(k, v)]
  | (k0, v0) :: rest =>
    if k0 = k then (k, v) :: rest else (k0, v0) :: btreeInsert rest k v

/-- `Node2` (`lib.rs`): the per-node port/buffer substrate — pull-side
(output) buffers and push-side (input) buffers, each a named `Frame`. -/
structure Node2 where
  pullports : List (String × Frame)
  pushports : List (String × Frame)
deriving DecidableEq

namespace Node2

/-- `Node2::new`. -/
def new : Node2 := ⟨[], []⟩

/-- `Node2::register_pullport` — `self.pullports.insert(name,
Frame::with_capacity(kind, buf_size))`. -/
def register_pullport (n : Node2) (name : String) (kind : FrameKind)
    (buf_size : Nat) : Node2 :=
  let buf := Frame.with_capacity kind buf_size
  { n with pullports := btreeInsert n.pullports name buf }

/-- `Node2::register_pushport`. -/
def register_pushport (n : Node2) (name : String) (kind : FrameKind)
    (buf_size : Nat) : Node2 :=
  let buf := Frame.with_capacity kind buf_size
  { n with pushports := btreeInsert n.pushports name buf }

/-- `Node2::get_pull_port` — a handle carrying the buffer's kind, or a
no-such-port error. -/
def get_pull_port (n : Node2) (id : Nat) (name : String) :
    Except String PullPort :=
  match btreeGet n.pullports name with
  | some frame => .ok ⟨id, name, frame.kind⟩
  | none => .error ("No pull port: " ++ name)

/-- `Node2::get_push_port`. -/
def get_push_port (n : Node2) (id : Nat) (name : String) :
    Except String PushPort :=
  match btreeGet n.pushports name with
  | some frame => .ok ⟨id, name, frame.kind⟩
  | none => .error ("No push port: " ++ name)

/-- `Node2::attach_push_port` — validates that the peer push handle's kind
equals the kind of the local pull buffer `name`. -/
def attach_push_port (n : Node2) (name : String) (port : PushPort) :
    Except String Unit :=
  match btreeGet n.pullports name with
  | some frame =>
    if port.kind = frame.kind then .ok ()
    else .error "Port kind mismatch"
  | none => .error ("No push port: " ++ name)

/-- `Node2::attach_pull_port` — validates that the peer pull handle's kind
equals the kind of the local push buffer `name`. -/
def attach_pull_port (n : Node2) (name : String) (port : PullPort) :
    Except String Unit :=
  match btreeGet n.pushports name with
  | some frame =>
    if port.kind = frame.kind then .ok ()
    else .error "Port kind mismatch"
  | none => .error ("No pull port: " ++ name)

/-- `Node2::ready_to_pull` — size of the pull-side (output) buffer; a panic
when the port is unknown. -/
def ready_to_pull (n : Node2) (port : PullPort) : Except String Nat :=
  match btreeGet n.pullports port.name with
  | some frame => .ok frame.size
  | none => .error ("No pull port: " ++ port.name)

/-- `Node2::ready_to_push` — free space of the push-side (input) buffer. -/
def ready_to_push (n : Node2) (port : PushPort) : Except String Nat :=
  match btreeGet n.pushports port.name with
  | some frame => .ok (frame.capacity - frame.size)
  | none => .error ("No push port: " ++ port.name)

/-- `Node2::pull_frame` (`lib.rs` lines 544-551) — the source begins with
`assert_eq!(count, 1)`, so any bulk pull with `count != 1` is a panic; then
`frame.remove(count).unwrap()`. -/
def pull_frame (n : Node2) (port : PullPort) (count : Nat) :
    Except String (Node2 × Frame) :=
  if count = 1 then
    match btreeGet n.pullports port.name with
    | some frame =>
      match frame.remove count with
      | some (frame2, removed) =>
        .ok ({ n with pullports := btreeInsert n.pullports port.name frame2 },
          removed)
      | none => .error "called Option::unwrap on a None value"
    | none => .error ("No pull port: " ++ port.name)
  else
    .error "assertion failed: count == 1"

/-- `Node2::push_frame` — `f.add(frame).unwrap()`, so a refused add (full
buffer) or a kind-mismatch panic inside `add` aborts. -/
def push_frame (n : Node2) (port : PushPort) (frame : Frame) :
    Except String Node2 :=
  match btreeGet n.pushports port.name with
  | some f =>
    match f.add frame with
    | .ok (f2, some _) =>
      .ok { n with pushports := btreeInsert n.pushports port.name f2 }
    | .ok (_, none) => .error "called Option::unwrap on a None value"
    | .error e => .error e
  | none => .error ("No pull port: " ++ port.name)

end Node2

/-- A node as the scheduler sees it: its buffer substrate plus its user
`tick` behaviour (`Node::tick` dispatches to the boxed `Node2T`
implementation, which may mutate the node's buffers and reports whether it
made progress). -/
structure NodeB where
  node2 : Node2
  tickF : Node2 → Node2 × Bool

/-- `NodeGraph` (`spec/mod.rs`): nodes indexed by insertion order, the
recorded links, and the parallel diagnostic name list. -/
structure NodeGraph where
  nodes : List NodeB
  links : List (PullPort × PushPort)
  node_names : List String

namespace NodeGraph

/-- `NodeGraph::new`. -/
def new : NodeGraph := ⟨[], [], []⟩

/-- `NodeGraph::insert` — push the node and its name; the returned id is
the index of the pushed node. -/
def insert (g : NodeGraph) (node : NodeB) (name : String) :
    NodeGraph × Nat :=
  ({ g with nodes := g.nodes ++ [node],
            node_names := g.node_names ++ [name] },
   g.nodes.length)

/-- `NodeGraph::get_pull_port` — `self.nodes[id]` panics on a bad index. -/
def get_pull_port (g : NodeGraph) (id : Nat) (name : String) :
    Except String PullPort :=
  match g.nodes.get? id with
  | some node => node.node2.get_pull_port id name
  | none => .error "index out of bounds"

/-- `NodeGraph::get_push_port`. -/
def get_push_port (g : NodeGraph) (id : Nat) (name : String) :
    Except String PushPort :=
  match g.nodes.get? id with
  | some node => node.node2.get_push_port id name
  | none => .error "index out of bounds"

/-- `NodeGraph::add_link` — validate via `attach_push_port` on the pull
side's node, then `attach_pull_port` on the push side's node (each `?`
propagates the error before the link is recorded); on success push the
link. -/
def add_link (g : NodeGraph) (p1 : PullPort) (p2 : PushPort) :
    Except String NodeGraph :=
  match g.nodes.get? p1.id with
  | none => .error "index out of bounds"
  | some n1 =>
    match n1.node2.attach_push_port p1.name p2 with
    | .error e => .error e
    | .ok _ =>
      match g.nodes.get? p2.id with
      | none => .error "index out of bounds"
      | some n2 =>
        match n2.node2.attach_pull_port p2.name p1 with
        | .error e => .error e
        | .ok _ => .ok { g with links := g.links ++ [(p1, p2)] }

end NodeGraph

/-- The loop body of `NodeGraph::tick_nodes`: walk the nodes in id order,
skip ids outside the selection, tick every visited node (`res |=
node.tick()` evaluates the tick unconditionally), and accumulate the OR of
the results. -/
def tickNodesGo (sel : Option (Finset Nat)) :
    Nat → List NodeB → Bool → List NodeB × Bool
  | _, [], res => ([], res)
  | idx, n :: rest, res =>
    let skip : Bool :=
      match sel with
      | some s => decide (idx ∉ s)
      | none => false
    if skip then
      let r := tickNodesGo sel (idx + 1) rest res
      (n :: r.1, r.2)
    else
      let t := n.tickF n.node2
      let r := tickNodesGo sel (idx + 1) rest (res || t.2)
      ({ n with node2 := t.1 } :: r.1, r.2)

namespace NodeGraph

/-- `NodeGraph::tick_nodes` — tick each node in the (optional) selection in
ascending id order; true iff any node made progress. -/
def tick_nodes (g : NodeGraph) (sel : Option (Finset Nat)) :
    NodeGraph × Bool :=
  let r := tickNodesGo sel 0 g.nodes false
  ({ g with nodes := r.1 }, r.2)

/-- `NodeGraph::pull_ready` — `ready_to_pull` on the owning node. -/
def pull_ready (g : NodeGraph) (p : PullPort) : Except String Nat :=
  match g.nodes.get? p.id with
  | some n => n.node2.ready_to_pull p
  | none => .error "index out of bounds"

/-- `NodeGraph::push_ready`. -/
def push_ready (g : NodeGraph) (p : PushPort) : Except String Nat :=
  match g.nodes.get? p.id with
  | some n => n.node2.ready_to_push p
  | none => .error "index out of bounds"

/-- `NodeGraph::pull_from` — `pull_frame` on the owning node, writing the
mutated node back. -/
def pull_from (g : NodeGraph) (p : PullPort) (count : Nat) :
    Except String (NodeGraph × Frame) :=
  match g.nodes.get? p.id with
  | some n =>
    match n.node2.pull_frame p count with
    | .ok (n2, f) =>
      .ok ({ g with nodes := g.nodes.set p.id { n with node2 := n2 } }, f)
    | .error e => .error e
  | none => .error "index out of bounds"

/-- `NodeGraph::push_to`. -/
def push_to (g : NodeGraph) (p : PushPort) (f : Frame) :
    Except String NodeGraph :=
  match g.nodes.get? p.id with
  | some n =>
    match n.node2.push_frame p f with
    | .ok n2 =>
      .ok { g with nodes := g.nodes.set p.id { n with node2 := n2 } }
    | .error e => .error e
  | none => .error "index out of bounds"

end NodeGraph

/-- The loop body of `NodeGraph::tick_links`: for each link in insertion
order compute `count = min(pull_ready, push_ready)`; when positive, pull
`count` elements and push them to the consumer, recording that a transfer
happened. -/
def tickLinksGo (g : NodeGraph) (ls : List (PullPort × PushPort))
    (res : Bool) : Except String (NodeGraph × Bool) :=
  match ls with
  | [] => .ok (g, res)
  | (pull, push) :: rest =>
    match g.pull_ready pull with
    | .error e => .error e
    | .ok pull_count =>
      match g.push_ready push with
      | .error e => .error e
      | .ok push_count =>
        let count := min pull_count push_count
        if count > 0 then
          match g.pull_from pull count with
          | .error e => .error e
          | .ok (g2, frame) =>
            match g2.push_to push frame with
            | .error e => .error e
            | .ok g3 => tickLinksGo g3 rest true
        else
          tickLinksGo g rest res

namespace NodeGraph

/-- `NodeGraph::tick_links` — iterate over a snapshot of the link list. -/
def tick_links (g : NodeGraph) : Except String (NodeGraph × Bool) :=
  tickLinksGo g g.links false

/-- `NodeGraph::tick` — `self.tick_nodes(None) || self.tick_links()`; the
Rust `||` short-circuits, so `tick_links` runs only when the node phase was
idle. -/
def tick (g : NodeGraph) : Except String (NodeGraph × Bool) :=
  let r := g.tick_nodes none
  if r.2 then
    .ok (r.1, true)
  else
    match r.1.tick_links with
    | .ok p => .ok (p.1, r.2 || p.2)
    | .error e => .error e

end NodeGraph

/-- The membership test of the prune step inside `NodeGraph::run`
(`spec/mod.rs` lines 159-170): node `n` is kept iff some link has its push
endpoint on `n` and its pull endpoint on a node of the current active set
(the `break` after the first hit makes the inner loop an existence test). -/
def hasActiveUpstream (links : List (PullPort × PushPort))
    (cur : Finset Nat) (n : Nat) : Bool :=
  links.any (fun l => decide (l.2.id = n) && decide (l.1.id ∈ cur))

namespace NodeGraph

/-- One prune step of `NodeGraph::run`: filter the current active set by
`hasActiveUpstream`. -/
def prune_step (g : NodeGraph) (cur : Finset Nat) : Finset Nat :=
  cur.filter (fun n => hasActiveUpstream g.links cur n = true)

end NodeGraph

/-! ## Characterization lemmas for the frame operations -/

theorem LimVecDeque.append_ok {α : Type} {q o q2 o2 : LimVecDeque α}
    (h : q.append o = .ok (q2, o2)) :
    q2.queue = q.queue ++ o.queue ∧ q2.capacity = q.capacity ∧
    q.queue.length + o.queue.length ≤ q.capacity := by
  unfold LimVecDeque.append at h
  split at h
  · rename_i hle
    cases h
    exact ⟨rfl, rfl, hle⟩
  · cases h

theorem LimVecDeque.pushBack_ok {α : Type} {q q2 : LimVecDeque α} {v : α}
    (h : q.pushBack v = .ok q2) :
    q2.queue = q.queue ++ [v] ∧ q2.capacity = q.capacity ∧
    q.queue.length + 1 ≤ q.capacity := by
  unfold LimVecDeque.pushBack at h
  split at h
  · rename_i hle
    cases h
    exact ⟨rfl, rfl, hle⟩
  · cases h

theorem LimVecDeque.pushBack_overflow {α : Type} (q : LimVecDeque α) (v : α)
    (h : q.capacity < q.queue.length + 1) :
    q.pushBack v =
      .error "assertion failed: self.queue.len() + 1 <= self.capacity" := by
  unfold LimVecDeque.pushBack
  rw [if_neg (by omega)]

theorem Frame.with_capacity_spec (k : FrameKind) (n : Nat) :
    (Frame.with_capacity k n).size = 0 ∧
    (Frame.with_capacity k n).capacity = n := by
  cases k <;>
    simp [Frame.with_capacity, Frame.size, Frame.capacity,
      LimVecDeque.withCapacity, LimVecDeque.len]

theorem Frame.addDispatch_ok {f d f2 : Frame}
    (h : Frame.addDispatch f d = .ok f2) :
    f2.size = f.size + d.size ∧ f2.capacity = f.capacity ∧
    f2.kind = f.kind := by
  cases f <;> cases d <;>
    simp only [Frame.addDispatch, Frame.unwrap_u8, Frame.unwrap_u8x1,
      Frame.unwrap_u8x2, Frame.unwrap_u16, Frame.unwrap_u16x1,
      Frame.unwrap_u16x2, Frame.unwrap_f32, Frame.unwrap_f32x1,
      Frame.unwrap_f32x2, Frame.unwrap_rgba8x2] at h <;>
    try cases h
  all_goals
    rename_i v u
    rcases hap : v.append u with q | p
    · rw [hap] at h; cases h
    · rw [hap] at h
      cases h
      obtain ⟨hq, hc, _⟩ := LimVecDeque.append_ok hap
      simp [Frame.size, Frame.capacity, Frame.kind, LimVecDeque.len, hq, hc]

theorem Frame.add_refuse {f d : Frame}
    (h : f.capacity < f.size + d.size) :
    f.add d = .ok (f, none) := by
  unfold Frame.add
  rw [if_neg (by omega)]

theorem Frame.add_ok_cases {f d f2 : Frame} {o : Option Unit}
    (h : f.add d = .ok (f2, o)) :
    (o = some () ∧ f.size + d.size ≤ f.capacity ∧
      f2.size = f.size + d.size ∧ f2.capacity = f.capacity ∧
      f2.kind = f.kind) ∨
    (o = none ∧ f2 = f ∧ f.capacity < f.size + d.size) := by
  unfold Frame.add at h
  split at h
  · rename_i hle
    rcases hd : Frame.addDispatch f d with e | g
    · rw [hd] at h; cases h
    · rw [hd] at h
      cases h
      obtain ⟨h1, h2, h3⟩ := Frame.addDispatch_ok hd
      exact Or.inl ⟨rfl, hle, h1, h2, h3⟩
  · rename_i hgt
    cases h
    exact Or.inr ⟨rfl, rfl, by omega⟩

theorem Frame.addSingleDispatch_ok {f : Frame} {d : FrameSingle} {f2 : Frame}
    (h : Frame.addSingleDispatch f d = .ok f2) :
    f2.size = f.size + 1 ∧ f2.capacity = f.capacity ∧
    f2.kind = f.kind := by
  cases f <;> cases d <;>
    simp only [Frame.addSingleDispatch] at h <;>
    try cases h
  all_goals
    rename_i v x
    rcases hp : v.pushBack x with q | v2
    · rw [hp] at h; cases h
    · rw [hp] at h
      cases h
      obtain ⟨hq, hc, _⟩ := LimVecDeque.pushBack_ok hp
      simp [Frame.size, Frame.capacity, Frame.kind, LimVecDeque.len, hq, hc]

theorem Frame.add_single_refuse {f : Frame} {d : FrameSingle}
    (h : ¬ f.capacity > f.size) :
    f.add_single d = .ok (f, none) := by
  unfold Frame.add_single
  rw [if_neg h]

theorem Frame.add_single_ok_cases {f : Frame} {d : FrameSingle} {f2 : Frame}
    {o : Option Unit} (h : f.add_single d = .ok (f2, o)) :
    (o = some () ∧ f.size < f.capacity ∧ f2.size = f.size + 1 ∧
      f2.capacity = f.capacity ∧ f2.kind = f.kind) ∨
    (o = none ∧ f2 = f ∧ f.capacity ≤ f.size) := by
  unfold Frame.add_single at h
  split at h
  · rename_i hlt
    rcases hd : Frame.addSingleDispatch f d with e | g
    · rw [hd] at h; cases h
    · rw [hd] at h
      cases h
      obtain ⟨h1, h2, h3⟩ := Frame.addSingleDispatch_ok hd
      exact Or.inl ⟨rfl, hlt, h1, h2, h3⟩
  · rename_i hge
    cases h
    exact Or.inr ⟨rfl, rfl, by omega⟩

theorem Frame.remove_spec {f : Frame} {count : Nat} {f2 r : Frame}
    (h : f.remove count = some (f2, r)) :
    count ≤ f.size ∧ f2.size = f.size - count ∧
    f2.capacity = f.capacity ∧ f2.kind = f.kind ∧
    r.size = count ∧ r.capacity = count ∧ r.kind = f.kind := by
  unfold Frame.remove at h
  split at h
  · rename_i hge
    cases f <;>
      · cases h
        refine ⟨hge, ?_⟩
        simp only [Frame.size, LimVecDeque.len] at hge
        simp [Frame.size, Frame.capacity, Frame.kind, LimVecDeque.len,
          LimVecDeque.drain, LimVecDeque.fromIter]
        omega
  · cases h

theorem Frame.peek_spec {f : Frame} {count : Nat} {r : Frame}
    (h : f.peek count = some r) :
    count ≤ f.size ∧ r.size = count ∧ r.capacity = count ∧
    r.kind = f.kind := by
  unfold Frame.peek at h
  split at h
  · rename_i hge
    cases f <;>
      · cases h
        refine ⟨hge, ?_⟩
        simp only [Frame.size, LimVecDeque.len] at hge
        simp [Frame.size, Frame.capacity, Frame.kind, LimVecDeque.len,
          LimVecDeque.makeContiguous, LimVecDeque.fromVec]
        omega
  · cases h

theorem Frame.remove_all_spec (f : Frame) :
    (f.remove_all).1.size = 0 ∧ (f.remove_all).1.capacity = f.capacity ∧
    (f.remove_all).2 = f := by
  obtain ⟨h1, h2⟩ := Frame.with_capacity_spec f.kind f.capacity
  exact ⟨h1, h2, rfl⟩

theorem Frame.remove_single_spec {f f2 : Frame} {s : FrameSingle}
    (h : f.remove_single = some (f2, s)) :
    1 ≤ f.size ∧ f2.size = f.size - 1 ∧ f2.capacity = f.capacity ∧
    f2.kind = f.kind := by
  cases f <;>
    · simp only [Frame.remove_single] at h
      rename_i v
      rcases hq : v.queue with q | ⟨a, rest⟩ <;>
        simp only [LimVecDeque.popFront, hq] at h
      · cases h
      · cases h
        simp [Frame.size, Frame.capacity, Frame.kind, LimVecDeque.len, hq]

/-! ## Operation sequences over one frame -/

/-- One `Frame` operation, for stating invariants over arbitrary operation
sequences. -/
inductive FrameOp where
  | add (data : Frame)
  | add_single (data : FrameSingle)
  | peek (count : Nat)
  | remove (count : Nat)
  | remove_all
  | remove_single

/-- The state of `self` after one operation.  A refused operation (`None`
result) leaves `self` unchanged, and so does a panic, which aborts before
any element is moved (`unwrap_<kind>` fires before `append`/`push_back`). -/
def applyFrameOp (f : Frame) (op : FrameOp) : Frame :=
  match op with
  | .add data =>
    match f.add data with
    | .ok p => p.1
    | .error _ => f
  | .add_single data =>
    match f.add_single data with
    | .ok p => p.1
    | .error _ => f
  | .peek _ => f
  | .remove count =>
    match f.remove count with
    | some p => p.1
    | none => f
  | .remove_all => (f.remove_all).1
  | .remove_single =>
    match f.remove_single with
    | some p => p.1
    | none => f

theorem applyFrameOp_inv {f : Frame} (op : FrameOp)
    (h : f.size ≤ f.capacity) :
    (applyFrameOp f op).size ≤ (applyFrameOp f op).capacity := by
  cases op with
  | add data =>
    rcases ha : f.add data with e | ⟨f2, o⟩
    · simpa [applyFrameOp, ha] using h
    · rcases Frame.add_ok_cases ha with ⟨_, hle, h1, h2, _⟩ | ⟨_, hf, _⟩
      · simp only [applyFrameOp, ha]
        omega
      · subst hf
        simpa [applyFrameOp, ha] using h
  | add_single data =>
    rcases ha : f.add_single data with e | ⟨f2, o⟩
    · simpa [applyFrameOp, ha] using h
    · rcases Frame.add_single_ok_cases ha with ⟨_, hlt, h1, h2, _⟩ | ⟨_, hf, _⟩
      · simp only [applyFrameOp, ha]
        omega
      · subst hf
        simpa [applyFrameOp, ha] using h
  | peek count => simpa [applyFrameOp] using h
  | remove count =>
    rcases hr : f.remove count with q | ⟨f2, r⟩
    · simpa [applyFrameOp, hr] using h
    · obtain ⟨_, h2, h3, _⟩ := Frame.remove_spec hr
      simp only [applyFrameOp, hr]
      omega
  | remove_all =>
    obtain ⟨h1, h2, _⟩ := Frame.remove_all_spec f
    simp only [applyFrameOp]
    omega
  | remove_single =>
    rcases hr : f.remove_single with q | ⟨f2, s⟩
    · simpa [applyFrameOp, hr] using h
    · obtain ⟨_, h2, h3, _⟩ := Frame.remove_single_spec hr
      simp only [applyFrameOp, hr]
      omega

theorem foldl_applyFrameOp_inv (ops : List FrameOp) (f : Frame)
    (h : f.size ≤ f.capacity) :
    (ops.foldl applyFrameOp f).size ≤ (ops.foldl applyFrameOp f).capacity := by
  induction ops generalizing f with
  | nil => simpa using h
  | cons op rest ih => exact ih _ (applyFrameOp_inv op h)

/-! ## Claim C6 — capacity bound invariant -/

/-- C6: starting from `Frame::with_capacity(k, n)`, after any sequence of
`add`, `add_single`, `peek`, `remove`, `remove_all`, `remove_single` the
frame satisfies `size() ≤ capacity()`; `add` and `add_single` refuse
(return `None`, leaving the frame unchanged) rather than exceed the
capacity; and a direct overflow of the bounded queue's `push_back` fails
loudly with the capacity assertion. -/
theorem claim_C6_capacity_bound (k : FrameKind) (n : Nat)
    (ops : List FrameOp) :
    ((ops.foldl applyFrameOp (Frame.with_capacity k n)).size ≤
      (ops.foldl applyFrameOp (Frame.with_capacity k n)).capacity) ∧
    (∀ f d : Frame, f.capacity < f.size + d.size →
      f.add d = .ok (f, none)) ∧
    (∀ (f : Frame) (s : FrameSingle), f.capacity ≤ f.size →
      f.add_single s = .ok (f, none)) ∧
    (∀ (α : Type) (q : LimVecDeque α) (v : α),
      q.capacity < q.queue.length + 1 → ∃ e, q.pushBack v = .error e) := by
  refine ⟨?_, ?_, ?_, ?_⟩
  · obtain ⟨h1, h2⟩ := Frame.with_capacity_spec k n
    exact foldl_applyFrameOp_inv ops _ (by omega)
  · exact fun f d h => Frame.add_refuse h
  · exact fun f s h => Frame.add_single_refuse (by omega)
  · exact fun α q v h => ⟨_, LimVecDeque.pushBack_overflow q v h⟩

/-- Witness for C6 at concrete inputs: a `U8` frame of capacity 2 run
through an add/remove sequence, a full frame refusing `add` and
`add_single`, and an over-full queue's `push_back` failing. -/
theorem claim_C6_capacity_bound_witness :
    (([FrameOp.add_single (.U8 3), FrameOp.add_single (.U8 4),
        FrameOp.remove 1].foldl applyFrameOp
        (Frame.with_capacity .U8 2)).size ≤
      (([FrameOp.add_single (.U8 3), FrameOp.add_single (.U8 4),
        FrameOp.remove 1].foldl applyFrameOp
        (Frame.with_capacity .U8 2))).capacity) ∧
    (Frame.U8 ⟨[1], 1⟩).add (Frame.U8 ⟨[2], 1⟩) =
      .ok (Frame.U8 ⟨[1], 1⟩, none) ∧
    (Frame.U8 ⟨[1], 1⟩).add_single (.U8 2) =
      .ok (Frame.U8 ⟨[1], 1⟩, none) ∧
    ∃ e, (⟨[5], 1⟩ : LimVecDeque Nat).pushBack 6 = .error e := by
  obtain ⟨h1, h2, h3, h4⟩ :=
    claim_C6_capacity_bound .U8 2
      [FrameOp.add_single (.U8 3), FrameOp.add_single (.U8 4),
        FrameOp.remove 1]
  exact ⟨h1, h2 _ _ (by decide), h3 _ _ (by decide),
    h4 Nat ⟨[5], 1⟩ 6 (by decide)⟩

/-! ## Claim C10 — frames returned by remove/peek are exactly full -/

/-- C10: every frame returned by `remove(n)` or `peek(n)` has
`capacity() = size() = n`, because the result queue is built with
`LimVecDeque::from_iter` / `From<Vec<_>>`, which set the capacity to the
element count. -/
theorem claim_C10_result_exactly_full (f : Frame) (n : Nat) :
    (∀ f2 r, f.remove n = some (f2, r) →
      r.capacity = r.size ∧ r.size = n) ∧
    (∀ r, f.peek n = some r → r.capacity = r.size ∧ r.size = n) := by
  constructor
  · intro f2 r h
    obtain ⟨_, _, _, _, h5, h6, _⟩ := Frame.remove_spec h
    exact ⟨by omega, h5⟩
  · intro r h
    obtain ⟨_, h2, h3, _⟩ := Frame.peek_spec h
    exact ⟨by omega, h2⟩

/-- Witness for C10: removing and peeking one element from a two-element
`U8` frame of capacity 3 yields frames with `capacity = size = 1`. -/
theorem claim_C10_result_exactly_full_witness :
    ((Frame.U8 ⟨[1, 2], 3⟩).remove 1 =
      some (Frame.U8 ⟨[2], 3⟩, Frame.U8 ⟨[1], 1⟩)) ∧
    ((Frame.U8 ⟨[1], 1⟩).capacity = (Frame.U8 ⟨[1], 1⟩).size ∧
      (Frame.U8 ⟨[1], 1⟩).size = 1) ∧
    ((Frame.U8 ⟨[1, 2], 3⟩).peek 1 = some (Frame.U8 ⟨[1], 1⟩)) ∧
    ((Frame.U8 ⟨[1], 1⟩).capacity = (Frame.U8 ⟨[1], 1⟩).size ∧
      (Frame.U8 ⟨[1], 1⟩).size = 1) := by
  refine ⟨by decide, ?_, by decide, ?_⟩
  · exact (claim_C10_result_exactly_full (Frame.U8 ⟨[1, 2], 3⟩) 1).1
      (Frame.U8 ⟨[2], 3⟩) (Frame.U8 ⟨[1], 1⟩) (by decide)
  · exact (claim_C10_result_exactly_full (Frame.U8 ⟨[1, 2], 3⟩) 1).2
      (Frame.U8 ⟨[1], 1⟩) (by decide)

/-! ## Claim C9 — the capacity check of `add` precedes the kind check -/

theorem Frame.addDispatch_mismatch {f d : Frame} (h : f.kind ≠ d.kind) :
    ∃ e, Frame.addDispatch f d = .error e := by
  cases f <;> cases d <;>
    first
      | exact absurd rfl h
      | exact ⟨_, rfl⟩

/-- C9: for frames of differing kinds, `add` returns `None` (no panic, the
target unchanged) whenever `size() + data.size() > capacity()`; the
kind-mismatch panic can only fire when the capacity check passes — the
capacity check comes first. -/
theorem claim_C9_capacity_check_first (self data : Frame)
    (hkind : self.kind ≠ data.kind) :
    (self.capacity < self.size + data.size →
      self.add data = .ok (self, none)) ∧
    (self.size + data.size ≤ self.capacity →
      ∃ e, self.add data = .error e) := by
  constructor
  · exact fun h => Frame.add_refuse h
  · intro hle
    obtain ⟨e, he⟩ := Frame.addDispatch_mismatch hkind
    refine ⟨e, ?_⟩
    unfold Frame.add
    rw [if_pos (by omega), he]

/-- Witness for C9: a full `U8` frame with `U16` data overflows and is
refused without a panic; with room available the same kind mismatch
panics. -/
theorem claim_C9_capacity_check_first_witness :
    ((Frame.U8 ⟨[1], 1⟩).add (Frame.U16 ⟨[2], 1⟩) =
      .ok (Frame.U8 ⟨[1], 1⟩, none)) ∧
    (∃ e, (Frame.U8 ⟨[], 1⟩).add (Frame.U16 ⟨[2], 2⟩) = .error e) := by
  refine ⟨?_, ?_⟩
  · exact (claim_C9_capacity_check_first (Frame.U8 ⟨[1], 1⟩)
      (Frame.U16 ⟨[2], 1⟩) (by decide)).1 (by decide)
  · exact (claim_C9_capacity_check_first (Frame.U8 ⟨[], 1⟩)
      (Frame.U16 ⟨[2], 2⟩) (by decide)).2 (by decide)

/-! ## A kind-indexed view of frames (verification glue)

To quantify one statement over "every kind K and every vector of elements
of kind K", we give the element type of each kind and the constructor that
wraps a queue of that element type in the matching `Frame` variant.  These
are spec-side glue, not source functions; each `Frame.mk0 k` is exactly the
`Frame` constructor whose tag is `k`. -/

/-- The element type carried by each frame kind. -/
@[reducible]
def FrameKind.Elem : FrameKind → Type
  | .U8 => Nat
  | .U8x1 => ArcArray1 Nat
  | .U8x2 => ArcArray2 Nat
  | .U16 => Nat
  | .U16x1 => ArcArray1 Nat
  | .U16x2 => ArcArray2 Nat
  | .F32 => F32Bits
  | .F32x1 => ArcArray1 F32Bits
  | .F32x2 => ArcArray2 F32Bits
  | .RGBA8x2 => ArcArray2 RGBA8

/-- Wrap a queue of `k`-elements in the `Frame` variant tagged `k`. -/
def Frame.mk0 : (k : FrameKind) → LimVecDeque (FrameKind.Elem k) → Frame
  | .U8, q => .U8 q
  | .U8x1, q => .U8x1 q
  | .U8x2, q => .U8x2 q
  | .U16, q => .U16 q
  | .U16x1, q => .U16x1 q
  | .U16x2, q => .U16x2 q
  | .F32, q => .F32 q
  | .F32x1, q => .F32x1 q
  | .F32x2, q => .F32x2 q
  | .RGBA8x2, q => .RGBA8x2 q

theorem Frame.mk0_add (k : FrameKind) (q d : LimVecDeque (FrameKind.Elem k)) :
    (Frame.mk0 k q).add (Frame.mk0 k d) =
      if q.capacity ≥ q.queue.length + d.queue.length then
        match q.append d with
        | .ok p => .ok (Frame.mk0 k p.1, some ())
        | .error e => .error e
      else
        .ok (Frame.mk0 k q, none) := by
  cases k <;>
    · simp only [Frame.mk0, Frame.add, Frame.addDispatch, Frame.unwrap_u8,
        Frame.unwrap_u8x1, Frame.unwrap_u8x2, Frame.unwrap_u16,
        Frame.unwrap_u16x1, Frame.unwrap_u16x2, Frame.unwrap_f32,
        Frame.unwrap_f32x1, Frame.unwrap_f32x2, Frame.unwrap_rgba8x2,
        Frame.size, Frame.capacity, LimVecDeque.len]
      rcases h : q.append d with e | p <;> simp [h]

theorem Frame.mk0_remove (k : FrameKind) (q : LimVecDeque (FrameKind.Elem k))
    (count : Nat) :
    (Frame.mk0 k q).remove count =
      if q.queue.length ≥ count then
        some (Frame.mk0 k ⟨q.queue.drop count, q.capacity⟩,
              Frame.mk0 k (LimVecDeque.fromIter (q.queue.take count)))
      else none := by
  cases k <;>
    · simp only [Frame.mk0, Frame.remove, Frame.size, LimVecDeque.len,
        LimVecDeque.drain]

/-! ## Claim C8 — the FIFO law (corrected) -/

/-- C8 counterexample: the FIFO law as stated — for EVERY frame `f` of
kind K, `add` of a frame holding `v` then `remove(v.len())` yields the
elements of `v` — fails when `f` is not empty: with `f` holding `[5]` and
`v = [7]`, the removed frame holds `[5]`, not `[7]` (FIFO order hands out
the pre-existing element first). -/
theorem claim_C8_fifo_counterexample :
    (Frame.U8 ⟨[5], 2⟩).add (Frame.mk0 .U8 (LimVecDeque.fromVec [7])) =
      .ok (Frame.U8 ⟨[5, 7], 2⟩, some ()) ∧
    (Frame.U8 ⟨[5, 7], 2⟩).remove 1 =
      some (Frame.U8 ⟨[7], 2⟩, Frame.U8 ⟨[5], 1⟩) ∧
    Frame.U8 ⟨[5], 1⟩ ≠ Frame.mk0 .U8 (LimVecDeque.fromVec [7]) :=
  ⟨rfl, rfl, by decide⟩

/-- C8 amended: for every kind `K`, every EMPTY frame of kind `K` whose
capacity can hold `v`, and every element vector `v` of kind `K`, adding
the frame holding `v` succeeds and then removing `v.len()` elements yields
exactly the frame holding the elements of `v` in the same order (and
leaves the buffer empty with its capacity intact). -/
theorem claim_C8_fifo_amended (k : FrameKind)
    (q : LimVecDeque (FrameKind.Elem k)) (l : List (FrameKind.Elem k))
    (hempty : q.queue = []) (hcap : l.length ≤ q.capacity) :
    (Frame.mk0 k q).add (Frame.mk0 k (LimVecDeque.fromVec l)) =
      .ok (Frame.mk0 k ⟨l, q.capacity⟩, some ()) ∧
    (Frame.mk0 k ⟨l, q.capacity⟩).remove l.length =
      some (Frame.mk0 k ⟨[], q.capacity⟩,
            Frame.mk0 k (LimVecDeque.fromVec l)) := by
  constructor
  · rw [Frame.mk0_add]
    rw [if_pos (by simp [hempty, LimVecDeque.fromVec]; omega)]
    have ha : q.append (LimVecDeque.fromVec l) =
        .ok (⟨l, q.capacity⟩, ⟨[], l.length⟩) := by
      unfold LimVecDeque.append LimVecDeque.fromVec LimVecDeque.len
      rw [hempty]
      rw [if_pos (by simpa using hcap)]
      simp
    rw [ha]
  · rw [Frame.mk0_remove]
    rw [if_pos (by simp)]
    simp [LimVecDeque.fromIter, LimVecDeque.fromVec]

/-- Witness for C8 amended: kind `U8`, empty capacity-2 buffer,
`v = [3, 4]`. -/
theorem claim_C8_fifo_amended_witness :
    (Frame.mk0 .U8 ⟨[], 2⟩).add (Frame.mk0 .U8 (LimVecDeque.fromVec [3, 4])) =
      .ok (Frame.mk0 .U8 ⟨[3, 4], 2⟩, some ()) ∧
    (Frame.mk0 .U8 ⟨[3, 4], 2⟩).remove 2 =
      some (Frame.mk0 .U8 ⟨[], 2⟩,
            Frame.mk0 .U8 (LimVecDeque.fromVec [3, 4])) := by
  have h := claim_C8_fifo_amended .U8 ⟨[], 2⟩ [3, 4] rfl (by decide)
  simpa using h

/-! ## Claim C7 — duplicate port registration (corrected) -/

theorem btreeGet_insert_self (m : List (String × Frame)) (k : String)
    (v : Frame) : btreeGet (btreeInsert m k v) k = some v := by
  induction m with
  | nil => simp [btreeInsert, btreeGet]
  | cons hd tl ih =>
    obtain ⟨k0, v0⟩ := hd
    by_cases hk : k0 = k
    · simp [btreeInsert, btreeGet, hk]
    · simp [btreeInsert, btreeGet, hk, ih]

theorem btreeInsert_insert_same (m : List (String × Frame)) (k : String)
    (v1 v2 : Frame) :
    btreeInsert (btreeInsert m k v1) k v2 = btreeInsert m k v2 := by
  induction m with
  | nil => simp [btreeInsert]
  | cons hd tl ih =>
    obtain ⟨k0, v0⟩ := hd
    by_cases hk : k0 = k
    · simp [btreeInsert, hk]
    · simp [btreeInsert, hk, ih]

/-- C7 counterexample: registering a pull port under an already-registered
name does NOT fail — `register_pullport` is a total operation built on
`BTreeMap::insert`, and the second registration silently replaces the
first buffer (the `U8`/capacity-1 buffer is gone, a `U16`/capacity-3
buffer took its place). -/
theorem claim_C7_duplicate_registration_counterexample :
    ((Node2.new.register_pullport "a" FrameKind.U8 1).register_pullport "a"
        FrameKind.U16 3).pullports =
      [("a", Frame.with_capacity FrameKind.U16 3)] ∧
    ((Node2.new.register_pushport "a" FrameKind.U8 1).register_pushport "a"
        FrameKind.U16 3).pushports =
      [("a", Frame.with_capacity FrameKind.U16 3)] := by
  constructor <;> rfl

/-- C7 amended: duplicate registration of a pull or push port does not
panic; it silently replaces the existing buffer — registering twice under
one name is the same as registering only the second time, and the buffer
found under the name afterwards is the one of the second registration. -/
theorem claim_C7_duplicate_registration_amended (n : Node2) (name : String)
    (k1 k2 : FrameKind) (s1 s2 : Nat) :
    ((n.register_pullport name k1 s1).register_pullport name k2 s2 =
      n.register_pullport name k2 s2) ∧
    (btreeGet ((n.register_pullport name k1 s1).register_pullport name k2
        s2).pullports name = some (Frame.with_capacity k2 s2)) ∧
    ((n.register_pushport name k1 s1).register_pushport name k2 s2 =
      n.register_pushport name k2 s2) ∧
    (btreeGet ((n.register_pushport name k1 s1).register_pushport name k2
        s2).pushports name = some (Frame.with_capacity k2 s2)) := by
  refine ⟨?_, ?_, ?_, ?_⟩
  · simp [Node2.register_pullport, btreeInsert_insert_same]
  · simp [Node2.register_pullport, btreeInsert_insert_same,
      btreeGet_insert_self]
  · simp [Node2.register_pushport, btreeInsert_insert_same]
  · simp [Node2.register_pushport, btreeInsert_insert_same,
      btreeGet_insert_self]

/-! ## Claim C2 — kind stability (code bug) -/

/-- C2 (code bug, `frame.rs` line 257): `Frame::with_capacity(U8x1, n)`
constructs the `U8x2` variant, so `with_capacity(k, n).kind() = k` fails at
`k = U8x1`; consequently `remove_all` on a `U8x1` frame swaps a `U8x2`
frame into place, changing the frame's kind after construction.  All other
kinds are stable, and `remove` always preserves the kind
(`Frame.remove_spec`). -/
theorem claim_C2_kind_stability_bug :
    (Frame.with_capacity FrameKind.U8x1 5).kind = FrameKind.U8x2 ∧
    FrameKind.U8x1 ≠ FrameKind.U8x2 ∧
    ((Frame.U8x1 (LimVecDeque.fromVec [[1]])).remove_all).1.kind =
      FrameKind.U8x2 ∧
    (Frame.U8x1 (LimVecDeque.fromVec [[1]])).kind = FrameKind.U8x1 := by
  decide

/-! ## Claim C1 — bulk link transfers (code bug)

`tick_links` computes `count = min(ready_to_pull, ready_to_push)` and calls
`pull_frame(pull, count)`, but `Node2::pull_frame` begins with
`assert_eq!(count, 1)`: any link that is ready to move two or more
elements panics instead of transferring. -/

/-- Observation helper: the size of the input buffer of push port `name`
on node `idx`. -/
def pushportSize (g : NodeGraph) (idx : Nat) (name : String) : Option Nat :=
  (g.nodes.get? idx).bind
    (fun nb => (btreeGet nb.node2.pushports name).map Frame.size)

/-- C1 failing input: the producer's output buffer holds two `U8` elements
and the consumer has room for two. -/
def graphC1bad : NodeGraph :=
  { nodes :=
      [ { node2 := { pullports := [("out", Frame.U8 ⟨[1, 2], 2⟩)],
                     pushports := [] },
          tickF := fun n => (n, false) },
        { node2 := { pullports := [],
                     pushports := [("in", Frame.U8 ⟨[], 2⟩)] },
          tickF := fun n => (n, false) } ],
    links := [(⟨0, "out", .U8⟩, ⟨1, "in", .U8⟩)],
    node_names := ["src", "snk"] }

/-- The same graph with a single queued element (`count = 1`). -/
def graphC1ok : NodeGraph :=
  { nodes :=
      [ { node2 := { pullports := [("out", Frame.U8 ⟨[1], 2⟩)],
                     pushports := [] },
          tickF := fun n => (n, false) },
        { node2 := { pullports := [],
                     pushports := [("in", Frame.U8 ⟨[], 2⟩)] },
          tickF := fun n => (n, false) } ],
    links := [(⟨0, "out", .U8⟩, ⟨1, "in", .U8⟩)],
    node_names := ["src", "snk"] }

/-- C1 (code bug, `lib.rs` lines 544-551): with
`n = min(ready_to_pull, ready_to_push) = 2` the link transfer does NOT
move 2 elements — `tick_links` aborts on `pull_frame`'s
`assert_eq!(count, 1)`; with `n = 1` the transfer succeeds, delivers the
element, and `tick_links` returns true. -/
theorem claim_C1_bulk_transfer_panics :
    graphC1bad.pull_ready ⟨0, "out", .U8⟩ = .ok 2 ∧
    graphC1bad.push_ready ⟨1, "in", .U8⟩ = .ok 2 ∧
    graphC1bad.tick_links = .error "assertion failed: count == 1" ∧
    (graphC1ok.tick_links).map
        (fun p => (p.2, pushportSize p.1 1 "in")) = .ok (true, some 1) :=
  ⟨rfl, rfl, rfl, rfl⟩

/-! ## Claim C3 — `tick` and the two phases (corrected)

`NodeGraph::tick` is `self.tick_nodes(None) || self.tick_links()` with the
short-circuiting Rust `||`: when the node phase reports progress the link
phase is skipped entirely. -/

/-- C3 counterexample graph: the producer's tick always claims progress
(without touching any buffer) and one element sits ready on the link. -/
def graphC3 : NodeGraph :=
  { nodes :=
      [ { node2 := { pullports := [("out", Frame.U8 ⟨[7], 2⟩)],
                     pushports := [] },
          tickF := fun n => (n, true) },
        { node2 := { pullports := [],
                     pushports := [("in", Frame.U8 ⟨[], 2⟩)] },
          tickF := fun n => (n, false) } ],
    links := [(⟨0, "out", .U8⟩, ⟨1, "in", .U8⟩)],
    node_names := ["src", "snk"] }

/-- C3 counterexample: on `graphC3`, `tick()` returns true yet the
consumer's input buffer stays empty — `tick_links` was not executed —
while the link phase alone would have transferred the ready element.  So
`tick_links` is NOT executed in every `tick()` step and the tick result is
not the OR of two executed phases. -/
theorem claim_C3_counterexample :
    (graphC3.tick).map (fun p => (p.2, pushportSize p.1 1 "in")) =
      .ok (true, some 0) ∧
    (graphC3.tick_links).map (fun p => (p.2, pushportSize p.1 1 "in")) =
      .ok (true, some 1) :=
  ⟨rfl, rfl⟩

/-- C3 amended: `tick()` evaluates `tick_nodes(None)` and short-circuits —
when the node phase made progress it returns true without running
`tick_links`; only when the node phase was idle does `tick_links` run, and
then `tick()`'s outcome is exactly the link phase's outcome.  Consequently
a `tick()` that returns false did run both phases and both were idle. -/
theorem claim_C3_tick_shortcircuit (g g1 : NodeGraph) (b : Bool)
    (h : g.tick_nodes none = (g1, b)) :
    (b = true → g.tick = .ok (g1, true)) ∧
    (b = false → g.tick = g1.tick_links) ∧
    (∀ g2, g.tick = .ok (g2, false) →
      b = false ∧ g1.tick_links = .ok (g2, false)) := by
  refine ⟨?_, ?_, ?_⟩
  · intro hb
    subst hb
    simp [NodeGraph.tick, h]
  · intro hb
    subst hb
    simp only [NodeGraph.tick, h]
    rcases ht : g1.tick_links with e | p
    · simp
    · simp
  · intro g2 htk
    cases b with
    | true =>
      simp only [NodeGraph.tick, h] at htk
      simp at htk
    | false =>
      refine ⟨rfl, ?_⟩
      simp only [NodeGraph.tick, h] at htk
      rcases ht : g1.tick_links with e | p <;> rw [ht] at htk
      · simp at htk
      · simpa using htk

/-- Idle graph for the C3 witness: no node reports progress and no link is
ready. -/
def graphC3idle : NodeGraph :=
  { nodes :=
      [ { node2 := { pullports := [("out", Frame.U8 ⟨[], 2⟩)],
                     pushports := [] },
          tickF := fun n => (n, false) },
        { node2 := { pullports := [],
                     pushports := [("in", Frame.U8 ⟨[], 2⟩)] },
          tickF := fun n => (n, false) } ],
    links := [(⟨0, "out", .U8⟩, ⟨1, "in", .U8⟩)],
    node_names := ["src", "snk"] }

/-- Witness for the amended C3 at a concrete idle graph whose node phase
returns false: `tick` is exactly the link phase run on the post-node-phase
graph. -/
theorem claim_C3_tick_shortcircuit_witness :
    graphC3idle.tick = (graphC3idle.tick_nodes none).1.tick_links :=
  (claim_C3_tick_shortcircuit graphC3idle (graphC3idle.tick_nodes none).1
    (graphC3idle.tick_nodes none).2 rfl).2.1 rfl

/-! ## Claim C4 — the prune rule of `run()` -/

/-- C4: during `run()`, where every pruned-away node stays without an
active upstream (the invariant hypothesis, true of the initial full active
set because link push-endpoints are valid node ids, and preserved by every
prune step — third conjunct), one prune step keeps exactly the nodes with
a link whose push endpoint is the node and whose pull endpoint is in the
previous active set; nodes with no inbound link at all are always
removed. -/
theorem claim_C4_prune_rule (g : NodeGraph) (cur : Finset Nat)
    (hinv : ∀ n, n ∉ cur → hasActiveUpstream g.links cur n = false) :
    (∀ n, n ∈ g.prune_step cur ↔
      hasActiveUpstream g.links cur n = true) ∧
    (∀ n, (∀ l ∈ g.links, l.2.id ≠ n) → n ∉ g.prune_step cur) ∧
    (∀ n, n ∉ g.prune_step cur →
      hasActiveUpstream g.links (g.prune_step cur) n = false) := by
  have hmem : ∀ n, n ∈ g.prune_step cur ↔
      n ∈ cur ∧ hasActiveUpstream g.links cur n = true := by
    intro n
    simp [NodeGraph.prune_step]
  have hiff : ∀ n, n ∈ g.prune_step cur ↔
      hasActiveUpstream g.links cur n = true := by
    intro n
    rw [hmem]
    constructor
    · exact fun h => h.2
    · intro h
      refine ⟨?_, h⟩
      by_contra hn
      rw [hinv n hn] at h
      cases h
  refine ⟨hiff, ?_, ?_⟩
  · intro n hnone
    rw [hiff]
    intro h
    rw [hasActiveUpstream, List.any_eq_true] at h
    obtain ⟨l, hl, hcond⟩ := h
    rw [Bool.and_eq_true, decide_eq_true_iff, decide_eq_true_iff] at hcond
    exact hnone l hl hcond.1
  · intro n hn
    by_contra habs
    rw [Bool.not_eq_false, hasActiveUpstream, List.any_eq_true] at habs
    obtain ⟨l, hl, hcond⟩ := habs
    rw [Bool.and_eq_true, decide_eq_true_iff, decide_eq_true_iff] at hcond
    have hin : l.1.id ∈ cur := ((hmem l.1.id).mp hcond.2).1
    have : hasActiveUpstream g.links cur n = true := by
      rw [hasActiveUpstream, List.any_eq_true]
      exact ⟨l, hl, by
        rw [Bool.and_eq_true, decide_eq_true_iff, decide_eq_true_iff]
        exact ⟨hcond.1, hin⟩⟩
    exact hn ((hiff n).mpr this)

/-- The invariant hypothesis of the prune-rule theorem holds at `run()`'s
initial active set (all node ids): every recorded link's push endpoint is a
valid node id, hence inside the initial set, so no node outside the set has
any inbound link at all. -/
theorem prune_initial_invariant (g : NodeGraph) (cur : Finset Nat)
    (hvalid : ∀ l ∈ g.links, l.2.id ∈ cur) :
    ∀ n, n ∉ cur → hasActiveUpstream g.links cur n = false := by
  intro n hn
  rw [hasActiveUpstream, List.any_eq_false]
  intro l hl
  rw [Bool.not_eq_true, Bool.and_eq_false_iff]
  left
  rw [decide_eq_false_iff_not]
  intro he
  exact hn (he ▸ hvalid l hl)

/-- Concrete graph for the C4 witness: one link from node 0 to node 1. -/
def graphC4 : NodeGraph :=
  { nodes := [], links := [(⟨0, "out", .U8⟩, ⟨1, "in", .U8⟩)],
    node_names := [] }

/-- Witness for C4 with the active set `{0, 1}`: node 1 (fed by active
node 0) survives the prune step; node 0 (a pure source, no inbound link)
is removed. -/
theorem claim_C4_prune_rule_witness :
    1 ∈ graphC4.prune_step {0, 1} ∧ 0 ∉ graphC4.prune_step {0, 1} := by
  have hinv : ∀ n, n ∉ ({0, 1} : Finset Nat) →
      hasActiveUpstream graphC4.links {0, 1} n = false := by
    intro n hn
    simp only [Finset.mem_insert, Finset.mem_singleton, not_or] at hn
    simp only [graphC4, hasActiveUpstream, List.any_cons, List.any_nil,
      Bool.or_false]
    rw [Bool.and_eq_false_iff]
    left
    simpa using fun h => hn.2 h.symm
  have h := claim_C4_prune_rule graphC4 {0, 1} hinv
  constructor
  · exact (h.1 1).mpr (by decide)
  · exact h.2.1 0 (by decide)

/-! ## Claim C5 — `add_link` validation (code bug)

The kinds carried by port handles and checked by the attach validators are
read back from the buffers (`FrameKind::from(frame)`), not from the
registration arguments.  Because `Frame::with_capacity` builds the `U8x2`
variant for kind `U8x1`, a pull port REGISTERED as `U8x1` and a push port
REGISTERED as `U8x2` look identical to the validators, and `add_link`
records a link whose endpoints' registered kinds differ. -/

/-- C5 failing input: node 0 registers pull port "out" with kind `U8x1`,
node 1 registers push port "in" with kind `U8x2`. -/
def graphC5 : NodeGraph :=
  { nodes :=
      [ { node2 := Node2.new.register_pullport "out" .U8x1 2,
          tickF := fun n => (n, false) },
        { node2 := Node2.new.register_pushport "in" .U8x2 2,
          tickF := fun n => (n, false) } ],
    links := [],
    node_names := ["src", "snk"] }

/-- C5 (code bug, consequence of the `with_capacity` slip): although the
registered kinds `U8x1` and `U8x2` differ, both port handles come back
with kind `U8x2`, both attach validators pass, and `add_link` records the
link instead of returning a kind-mismatch error. -/
theorem claim_C5_mismatched_link_recorded :
    FrameKind.U8x1 ≠ FrameKind.U8x2 ∧
    graphC5.get_pull_port 0 "out" = .ok ⟨0, "out", FrameKind.U8x2⟩ ∧
    graphC5.get_push_port 1 "in" = .ok ⟨1, "in", FrameKind.U8x2⟩ ∧
    (graphC5.add_link ⟨0, "out", FrameKind.U8x2⟩
        ⟨1, "in", FrameKind.U8x2⟩).map NodeGraph.links =
      .ok [(⟨0, "out", FrameKind.U8x2⟩, ⟨1, "in", FrameKind.U8x2⟩)] :=
  ⟨by decide, rfl, rfl, rfl⟩

end Vidmod
